import Mathlib

/-!
A shallow embedding of the bird-catalog server (`src/server.js`) and proofs
about its rate limiter, operation log, CRUD store and pagination.

Time is modelled as integer milliseconds (JS `Date.getTime()` values); the
three persisted collections (bird store `data.json`, rate-limit file
`ip_operations.json`, operation log `operation_log.json`) are modelled as
in-memory lists, and "the file was rewritten" as a boolean flag per request.
-/

namespace BirdServer

/-- 24 hours in milliseconds (`24 * 60 * 60 * 1000` in the source). -/
def dayMs : Int := 24 * 60 * 60 * 1000

/-- 30 days in milliseconds, the operation-log retention cutoff
(the source computes `thirtyDaysAgo` by calendar arithmetic
`setDate(getDate() - 30)`; we model it as a fixed 30-day offset). -/
def thirtyDaysMs : Int := 30 * 24 * 60 * 60 * 1000

/-- `Math.ceil(a / b)` on integers, for positive `b`
(`Int.ediv` is floor division for positive divisors). -/
def intCeilDiv (a b : Int) : Int := -((-a).ediv b)

/-- A bird record `{id, name, imageUrl}` as stored in `data.json`. -/
structure Bird where
  id : Int
  name : String
  imageUrl : Option String
deriving DecidableEq

/-- One entry of `ip_operations.json`: `{ip, timestamp, method, path}`. -/
structure IpOp where
  ip : String
  timestamp : Int
  method : String
  path : String
deriving DecidableEq

/-- One entry of `operation_log.json`:
`{timestamp, ip, operation, method, path, userAgent}`. -/
structure LogEntry where
  timestamp : Int
  ip : String
  operation : String
  method : String
  path : String
  userAgent : String
deriving DecidableEq

/-- An uploaded multipart file as seen by the handlers
(`req.file`): its generated filename and its size in bytes. -/
structure UploadedFile where
  filename : String
  size : Nat
deriving DecidableEq

/-- Outcome of the `operationRateLimiter` middleware. -/
inductive RLDecision where
  /-- The 429 response body's `remaining` and `resetTime` fields. -/
  | rejected (remaining : Nat) (resetTime : Int)
  /-- The request proceeds; the `X-RateLimit-Remaining` header value. -/
  | allowed (remaining : Int)
deriving DecidableEq

/-- Whether the limiter turned the request away with a 429. -/
def RLDecision.isRejected : RLDecision → Bool
  | .rejected _ _ => true
  | .allowed _ => false

/-- The `recentOperations` filter of `operationRateLimiter`: the recorded
operations of `clientIp` strictly inside the trailing 24-hour window. -/
def recentForIp (ops : List IpOp) (now : Int) (clientIp : String) : List IpOp :=
  ops.filter (fun op => decide (now - dayMs < op.timestamp) && (op.ip == clientIp))

/-- `operationRateLimiter` (src/server.js lines 165–207): count this IP's
operations in the trailing 24 h; at 8 or more, reject with `remaining = 0` and
`resetTime = Math.ceil((twentyFourHoursAgo + 24h - now) / 1000)` without
touching the file; otherwise append a new record, prune the whole dataset to
the window and persist. Returns (decision, new file contents, file written). -/
def operationRateLimiter (ops : List IpOp) (now : Int) (clientIp method path : String) :
    RLDecision × List IpOp × Bool :=
  let twentyFourHoursAgo := now - dayMs
  let recentOperations := recentForIp ops now clientIp
  if 8 ≤ recentOperations.length then
    (.rejected 0 (intCeilDiv (twentyFourHoursAgo + dayMs - now) 1000), ops, false)
  else
    let appended := ops ++ [⟨clientIp, now, method, path⟩]
    let cleanedOperations := appended.filter (fun op => decide (twentyFourHoursAgo < op.timestamp))
    (.allowed (8 - (recentOperations.length : Int) - 1), cleanedOperations, true)

/-- The operation description: the URL-decoded `x-operation-desc` header when
present, else `"<METHOD> <path>"`. -/
def jsOpDesc (opDesc : Option String) (method path : String) : String :=
  opDesc.getD (method ++ " " ++ path)

/-- `logOperation` (src/server.js lines 130–162): append one entry, drop
entries older than 30 days, rewrite the log file. Returns the new log
contents and the operation description stored in `res.locals`. -/
def logOperation (logs : List LogEntry) (now : Int) (ip : String) (opDesc : Option String)
    (method path userAgent : String) : List LogEntry × String :=
  let desc := jsOpDesc opDesc method path
  let entry : LogEntry := ⟨now, ip, desc, method, path, userAgent⟩
  let recentLogs := (logs ++ [entry]).filter (fun l => decide (now - thirtyDaysMs < l.timestamp))
  (recentLogs, desc)

/-- The server's mutable state: the three persisted collections. -/
structure ServerState where
  birds : List Bird
  ipOps : List IpOp
  opLog : List LogEntry
deriving DecidableEq

/-- The JSON responses the bird endpoints produce. -/
inductive ApiResponse where
  | rateLimited (remaining : Nat) (resetTime : Int)
  | badRequest (error : String)
  | notFound
  | createdBird (bird : Bird) (operation : String)
  | okBird (bird : Bird) (operation : String)
  | deletedOk (operation : String)
deriving DecidableEq

/-- The HTTP status code of each response. -/
def ApiResponse.status : ApiResponse → Nat
  | .rateLimited _ _ => 429
  | .badRequest _ => 400
  | .notFound => 404
  | .createdBird _ _ => 201
  | .okBird _ _ => 200
  | .deletedOk _ => 200

/-- The effect of one mutating request: the response, the new server state
and, for each backing file, whether this request rewrote it. -/
structure StepResult where
  resp : ApiResponse
  state : ServerState
  ipFileWritten : Bool
  logFileWritten : Bool
  dataFileWritten : Bool
deriving DecidableEq

/-- `POST /api/birds` (src/server.js lines 306–340), middleware included:
rate limiter, then operation logger, then validation (`!name`, length > 10,
image > 1 MiB), then prepend the new record with `id = Date.now()` and
persist. `name = none` models a missing form field. -/
def postBird (s : ServerState) (now : Int) (ip : String) (opDesc : Option String)
    (userAgent : String) (name : Option String) (file : Option UploadedFile) : StepResult :=
  let r := operationRateLimiter s.ipOps now ip "POST" "/api/birds"
  match r.1 with
  | .rejected rem rt => ⟨.rateLimited rem rt, s, false, false, false⟩
  | .allowed _ =>
    let lr := logOperation s.opLog now ip opDesc "POST" "/api/birds" userAgent
    let s1 : ServerState := ⟨s.birds, r.2.1, lr.1⟩
    match name with
    | none => ⟨.badRequest "Name is required", s1, true, true, false⟩
    | some nm =>
      if nm = "" then ⟨.badRequest "Name is required", s1, true, true, false⟩
      else if 10 < nm.length then
        ⟨.badRequest "Name cannot exceed 10 characters", s1, true, true, false⟩
      else
        let created : StepResult :=
          let newBird : Bird := ⟨now, nm, file.map UploadedFile.filename⟩
          ⟨.createdBird newBird lr.2, ⟨newBird :: s.birds, r.2.1, lr.1⟩, true, true, true⟩
        match file with
        | some f =>
          if 1048576 < f.size then
            ⟨.badRequest "Image size cannot exceed 1MB", s1, true, true, false⟩
          else created
        | none => created

/-- `PUT /api/birds/:id` (src/server.js lines 343–380): after limiter and
logger, locate the record by id (404 when absent), replace the name when a
non-empty one is supplied and the image filename when a file is supplied
(no length or size validation here), and persist. -/
def putBird (s : ServerState) (now : Int) (ip : String) (opDesc : Option String)
    (userAgent : String) (id : Int) (name : Option String) (file : Option UploadedFile) :
    StepResult :=
  let path := "/api/birds/" ++ toString id
  let r := operationRateLimiter s.ipOps now ip "PUT" path
  match r.1 with
  | .rejected rem rt => ⟨.rateLimited rem rt, s, false, false, false⟩
  | .allowed _ =>
    let lr := logOperation s.opLog now ip opDesc "PUT" path userAgent
    let s1 : ServerState := ⟨s.birds, r.2.1, lr.1⟩
    match s.birds.findIdx? (fun b => b.id == id) with
    | none => ⟨.notFound, s1, true, true, false⟩
    | some i =>
      let old := s.birds.getD i ⟨0, "", none⟩
      let b1 := match name with
        | some nm => if nm = "" then old else { old with name := nm }
        | none => old
      let b2 := match file with
        | some f => { b1 with imageUrl := some f.filename }
        | none => b1
      ⟨.okBird b2 lr.2, ⟨s.birds.set i b2, r.2.1, lr.1⟩, true, true, true⟩

/-- `DELETE /api/birds/:id` (src/server.js lines 383–414): after limiter and
logger, locate the record by id (404 when absent), splice it out and persist. -/
def deleteBird (s : ServerState) (now : Int) (ip : String) (opDesc : Option String)
    (userAgent : String) (id : Int) : StepResult :=
  let path := "/api/birds/" ++ toString id
  let r := operationRateLimiter s.ipOps now ip "DELETE" path
  match r.1 with
  | .rejected rem rt => ⟨.rateLimited rem rt, s, false, false, false⟩
  | .allowed _ =>
    let lr := logOperation s.opLog now ip opDesc "DELETE" path userAgent
    let s1 : ServerState := ⟨s.birds, r.2.1, lr.1⟩
    match s.birds.findIdx? (fun b => b.id == id) with
    | none => ⟨.notFound, s1, true, true, false⟩
    | some i => ⟨.deletedOk lr.2, ⟨s.birds.eraseIdx i, r.2.1, lr.1⟩, true, true, true⟩

/-- `GET /api/birds/:id` (src/server.js lines 289–303): first record whose id
matches, if any. -/
def getBirdById (birds : List Bird) (id : Int) : Option Bird :=
  birds.find? (fun b => b.id == id)

/-- Whether `sub` occurs contiguously inside `l`. -/
def hasSubList (sub : List Char) : List Char → Bool
  | [] => sub.isEmpty
  | c :: rest => sub.isPrefixOf (c :: rest) || hasSubList sub rest

/-- JS `String.prototype.includes`: `jsIncludes s sub` is true when `sub`
occurs contiguously inside `s`. -/
def jsIncludes (s sub : String) : Bool :=
  hasSubList sub.toList s.toList

/-- Clamp one `Array.prototype.slice` index: a negative index counts from the
end (floored at 0), a non-negative one is capped at the length. -/
def jsSliceIndex (len : Nat) (i : Int) : Nat :=
  if i < 0 then ((len : Int) + i).toNat else min i.toNat len

/-- JS `Array.prototype.slice(s, e)`: the elements between the two clamped
indices (empty when the end does not exceed the start). -/
def jsSlice (l : List α) (s e : Int) : List α :=
  (l.take (jsSliceIndex l.length e)).drop (jsSliceIndex l.length s)

/-- `parseInt(req.query.page) || 1`: `none` models an absent or non-numeric
page (`parseInt` gave `NaN`); both `NaN` and `0` are falsy and fall back
to `1`, every other integer is kept. -/
def pageOrDefault : Option Int → Int
  | none => 1
  | some n => if n = 0 then 1 else n

/-- The body of `GET /api/birds` (src/server.js lines 242–270) after query
parsing: filter by case-insensitive substring match on the name when the
search string is non-empty, slice page `page` of size 48, and report
`hasMore` when the slice's end index is below the filtered length. -/
def listBirds (birds : List Bird) (page : Int) (search : String) : List Bird × Bool :=
  let pageSize : Int := 48
  let filteredBirds :=
    if search = "" then birds
    else birds.filter (fun bird => jsIncludes bird.name.toLower search.toLower)
  let startIndex := (page - 1) * pageSize
  let endIndex := startIndex + pageSize
  let paginatedBirds := jsSlice filteredBirds startIndex endIndex
  (paginatedBirds, decide (endIndex < (filteredBirds.length : Int)))

/-- `GET /api/birds` including the `parseInt(...) || 1` page parsing. -/
def getBirds (birds : List Bird) (pageQuery : Option Int) (search : String) :
    List Bird × Bool :=
  listBirds birds (pageOrDefault pageQuery) search

/-- The filtering step as the spec words it: keep the records whose name
contains the search string, case-insensitively; apply no filter when the
search string is empty. -/
def specFilteredBirds (birds : List Bird) (search : String) : List Bird :=
  if search = "" then birds
  else birds.filter (fun bird => jsIncludes bird.name.toLower search.toLower)

/-- The JSON values that can appear in the persisted files. -/
inductive Json where
  | null
  | str (s : String)
  | num (n : Int)
  | arr (items : List Json)
  | obj (fields : List (String × Json))

/-- `JSON.stringify` of one bird record: an object with the fields in literal
order `id`, `name`, `imageUrl` (a missing image is serialized as `null`). -/
def birdToJson (b : Bird) : Json :=
  .obj [("id", .num b.id), ("name", .str b.name),
        ("imageUrl", match b.imageUrl with | some u => .str u | none => .null)]

/-- Reading one bird object back, as `initData`'s `JSON.parse` reproduces it:
the same three fields, `imageUrl` either a string or `null`. -/
def jsonToBird : Json → Option Bird
  | .obj [("id", .num i), ("name", .str n), ("imageUrl", img)] =>
    match img with
    | .null => some ⟨i, n, none⟩
    | .str u => some ⟨i, n, some u⟩
    | _ => none
  | _ => none

/-- `saveData` (src/server.js lines 228–234): the JSON tree
`JSON.stringify(birds, null, 2)` writes to `data.json`. -/
def saveData (birds : List Bird) : Json :=
  .arr (birds.map birdToJson)

/-- Reading each element of the parsed array back as a bird record; `none`
when any element is not a record object. -/
def decodeBirds : List Json → Option (List Bird)
  | [] => some []
  | j :: rest =>
    match jsonToBird j, decodeBirds rest with
    | some b, some bs => some (b :: bs)
    | _, _ => none

/-- `initData` (src/server.js lines 217–225): parse the file back into the
record list; `none` models a file that does not hold an array of records. -/
def initData : Json → Option (List Bird)
  | .arr items => decodeBirds items
  | _ => none

/-- The state after `n` consecutive mutating requests from the same IP at the
same instant, starting from an empty rate-limit file. -/
def limiterIterate (now : Int) (ip method path : String) : Nat → List IpOp
  | 0 => []
  | n + 1 => (operationRateLimiter (limiterIterate now ip method path n) now ip method path).2.1

/-- A concrete server state whose rate-limit file already holds 8 fresh
operations of IP `"a"`: the next mutating request from `"a"` is throttled. -/
def throttledState : ServerState :=
  ⟨[], List.replicate 8 ⟨"a", 0, "POST", "/api/birds"⟩, []⟩

/-- A failed mutation's footprint: the bird store and its file are untouched,
while the request's rate-limit entry and operation-log entry were appended
and both of those files were rewritten. -/
def recordedNotApplied (s : ServerState) (r : StepResult) (e : IpOp) (le : LogEntry) : Prop :=
  r.state.birds = s.birds
  ∧ r.dataFileWritten = false
  ∧ r.ipFileWritten = true
  ∧ e ∈ r.state.ipOps
  ∧ r.logFileWritten = true
  ∧ le ∈ r.state.opLog

/-! ### Helper lemmas -/

theorem dayMs_pos : (0 : Int) < dayMs := by norm_num [dayMs]

theorem thirtyDaysMs_pos : (0 : Int) < thirtyDaysMs := by norm_num [thirtyDaysMs]

theorem limiter_rejected_eq (ops : List IpOp) (now : Int) (ip m p : String)
    (h : 8 ≤ (recentForIp ops now ip).length) :
    operationRateLimiter ops now ip m p
      = (.rejected 0 (intCeilDiv (now - dayMs + dayMs - now) 1000), ops, false) := by
  simp only [operationRateLimiter]
  rw [if_pos h]

theorem limiter_allowed_eq (ops : List IpOp) (now : Int) (ip m p : String)
    (h : (recentForIp ops now ip).length < 8) :
    operationRateLimiter ops now ip m p
      = (.allowed (8 - ((recentForIp ops now ip).length : Int) - 1),
         (ops ++ [(⟨ip, now, m, p⟩ : IpOp)]).filter
           (fun op => decide (now - dayMs < op.timestamp)),
         true) := by
  simp only [operationRateLimiter]
  rw [if_neg (by omega)]

theorem recentForIp_filter_own_ip (ops : List IpOp) (now : Int) (ip : String) :
    recentForIp (ops.filter (fun op => op.ip == ip)) now ip = recentForIp ops now ip := by
  induction ops with
  | nil => rfl
  | cons o t ih =>
    simp only [recentForIp, List.filter_cons] at ih ⊢
    by_cases hip : o.ip = ip
    · by_cases ht : now - dayMs < o.timestamp
      · simp [hip, ht, List.filter_cons, ih]
      · simp [hip, ht, List.filter_cons, ih]
    · simp [hip, ih]

theorem recentForIp_replicate (now : Int) (ip m p : String) (n : Nat) :
    recentForIp (List.replicate n (⟨ip, now, m, p⟩ : IpOp)) now ip
      = List.replicate n (⟨ip, now, m, p⟩ : IpOp) := by
  unfold recentForIp
  rw [List.filter_replicate]
  have h1 : now - dayMs < now := by have := dayMs_pos; omega
  simp [h1]

theorem limiterIterate_eq_replicate (now : Int) (ip m p : String) :
    ∀ n, n ≤ 8 → limiterIterate now ip m p n = List.replicate n (⟨ip, now, m, p⟩ : IpOp) := by
  intro n
  induction n with
  | zero => intro _; rfl
  | succ k ih =>
    intro hk
    have hstate := ih (by omega)
    have hlen : (recentForIp (limiterIterate now ip m p k) now ip).length < 8 := by
      rw [hstate, recentForIp_replicate, List.length_replicate]
      omega
    have hall := limiter_allowed_eq (limiterIterate now ip m p k) now ip m p hlen
    have h1 : now - dayMs < now := by have := dayMs_pos; omega
    calc limiterIterate now ip m p (k + 1)
        = (operationRateLimiter (limiterIterate now ip m p k) now ip m p).2.1 := rfl
      _ = (List.replicate k (⟨ip, now, m, p⟩ : IpOp) ++ [(⟨ip, now, m, p⟩ : IpOp)]).filter
            (fun op => decide (now - dayMs < op.timestamp)) := by rw [hall, hstate]
      _ = List.replicate (k + 1) (⟨ip, now, m, p⟩ : IpOp) := by
          rw [← List.replicate_succ']
          rw [List.filter_replicate]
          simp [h1]

/-! ### Claim C1 -/

/-- C1: a mutating request is rejected with 429 exactly when its IP already
has 8 or more recorded operations in the trailing 24 hours; entries recorded
for other IPs never affect the decision (dropping them changes nothing); and
from an empty file the 8th consecutive request from one IP succeeds while the
9th is rejected. -/
theorem rateLimiter_per_ip_sliding_window :
    (∀ (ops : List IpOp) (now : Int) (ip m p : String),
      (operationRateLimiter ops now ip m p).1.isRejected = true ↔
        8 ≤ (recentForIp ops now ip).length)
    ∧ (∀ (ops : List IpOp) (now : Int) (ip m p : String),
      (operationRateLimiter (ops.filter (fun op => op.ip == ip)) now ip m p).1.isRejected
        = (operationRateLimiter ops now ip m p).1.isRejected)
    ∧ (∀ (now : Int) (ip m p : String),
      (operationRateLimiter (limiterIterate now ip m p 7) now ip m p).1.isRejected = false
      ∧ (operationRateLimiter (limiterIterate now ip m p 8) now ip m p).1.isRejected = true) := by
  have hiff : ∀ (ops : List IpOp) (now : Int) (ip m p : String),
      (operationRateLimiter ops now ip m p).1.isRejected = true ↔
        8 ≤ (recentForIp ops now ip).length := by
    intro ops now ip m p
    by_cases h : 8 ≤ (recentForIp ops now ip).length
    · rw [limiter_rejected_eq ops now ip m p h]
      simp [RLDecision.isRejected, h]
    · rw [limiter_allowed_eq ops now ip m p (by omega)]
      simp [RLDecision.isRejected, h]
  refine ⟨hiff, ?_, ?_⟩
  · intro ops now ip m p
    by_cases h : 8 ≤ (recentForIp ops now ip).length
    · have h' : 8 ≤ (recentForIp (ops.filter (fun op => op.ip == ip)) now ip).length := by
        rw [recentForIp_filter_own_ip]; exact h
      rw [(hiff _ now ip m p).mpr h, (hiff _ now ip m p).mpr h']
    · have h' : ¬ 8 ≤ (recentForIp (ops.filter (fun op => op.ip == ip)) now ip).length := by
        rw [recentForIp_filter_own_ip]; exact h
      have e1 := (hiff (ops.filter (fun op => op.ip == ip)) now ip m p)
      have e2 := (hiff ops now ip m p)
      rw [Bool.eq_iff_iff, e1, e2]
      rw [recentForIp_filter_own_ip]
  · intro now ip m p
    constructor
    · have h7 := limiterIterate_eq_replicate now ip m p 7 (by omega)
      have : ¬ 8 ≤ (recentForIp (limiterIterate now ip m p 7) now ip).length := by
        rw [h7, recentForIp_replicate, List.length_replicate]; omega
      rw [limiter_allowed_eq _ now ip m p (by omega)]
      rfl
    · have h8 := limiterIterate_eq_replicate now ip m p 8 (by omega)
      have : 8 ≤ (recentForIp (limiterIterate now ip m p 8) now ip).length := by
        rw [h8, recentForIp_replicate, List.length_replicate]
      rw [limiter_rejected_eq _ now ip m p this]
      rfl

/-! ### Claim C2 -/

/-- C2: when the limiter rejects (the IP already has 8 or more recorded
operations in the window), the rate-limit data is returned exactly unchanged —
nothing appended, nothing pruned — and the file is not rewritten. -/
theorem rateLimiter_rejection_state_unchanged (ops : List IpOp) (now : Int) (ip m p : String)
    (h : 8 ≤ (recentForIp ops now ip).length) :
    (operationRateLimiter ops now ip m p).2.1 = ops
    ∧ (operationRateLimiter ops now ip m p).2.2 = false := by
  rw [limiter_rejected_eq ops now ip m p h]
  exact ⟨rfl, rfl⟩

/-- Witness for C2 at a file holding 8 fresh operations of IP `"a"`. -/
theorem rateLimiter_rejection_state_unchanged_witness :
    8 ≤ (recentForIp (List.replicate 8 ⟨"a", 0, "POST", "/api/birds"⟩) 0 "a").length
    ∧ ((operationRateLimiter (List.replicate 8 ⟨"a", 0, "POST", "/api/birds"⟩) 0 "a"
          "POST" "/api/birds").2.1 = List.replicate 8 ⟨"a", 0, "POST", "/api/birds"⟩
      ∧ (operationRateLimiter (List.replicate 8 ⟨"a", 0, "POST", "/api/birds"⟩) 0 "a"
          "POST" "/api/birds").2.2 = false) :=
  ⟨by decide,
   rateLimiter_rejection_state_unchanged (List.replicate 8 ⟨"a", 0, "POST", "/api/birds"⟩)
     0 "a" "POST" "/api/birds" (by decide)⟩

/-! ### Claim C4 -/

/-- C4: on rejection the 429 body carries
`resetTime = Math.ceil((twentyFourHoursAgo + 24h - now) / 1000)` computed by
integer arithmetic on millisecond timestamps, and that value is non-negative. -/
theorem rateLimiter_resetTime_value (ops : List IpOp) (now : Int) (ip m p : String)
    (h : 8 ≤ (recentForIp ops now ip).length) :
    (operationRateLimiter ops now ip m p).1
      = .rejected 0 (intCeilDiv (now - dayMs + dayMs - now) 1000)
    ∧ 0 ≤ intCeilDiv (now - dayMs + dayMs - now) 1000 := by
  rw [limiter_rejected_eq ops now ip m p h]
  refine ⟨rfl, ?_⟩
  have h0 : now - dayMs + dayMs - now = 0 := by ring
  rw [h0]
  decide

/-- Witness for C4 at a file holding 8 fresh operations of IP `"a"`. -/
theorem rateLimiter_resetTime_value_witness :
    8 ≤ (recentForIp (List.replicate 8 ⟨"a", 0, "POST", "/api/birds"⟩) 0 "a").length
    ∧ ((operationRateLimiter (List.replicate 8 ⟨"a", 0, "POST", "/api/birds"⟩) 0 "a"
          "POST" "/api/birds").1
        = .rejected 0 (intCeilDiv ((0 : Int) - dayMs + dayMs - 0) 1000)
      ∧ 0 ≤ intCeilDiv ((0 : Int) - dayMs + dayMs - 0) 1000) :=
  ⟨by decide,
   rateLimiter_resetTime_value (List.replicate 8 ⟨"a", 0, "POST", "/api/birds"⟩)
     0 "a" "POST" "/api/birds" (by decide)⟩

/-! ### Claim C3 -/

/-- C3: on each mutating route the limiter middleware runs first and, when it
rejects, responds 429 without calling the logger: the operation log is
unchanged and its file is not rewritten, on POST, PUT and DELETE alike. -/
theorem rateLimited_request_not_logged (s : ServerState) (now : Int)
    (ip : String) (opDesc : Option String) (ua : String) (name : Option String)
    (file : Option UploadedFile) (id : Int)
    (h : 8 ≤ (recentForIp s.ipOps now ip).length) :
    ((postBird s now ip opDesc ua name file).state.opLog = s.opLog
      ∧ (postBird s now ip opDesc ua name file).resp.status = 429
      ∧ (postBird s now ip opDesc ua name file).logFileWritten = false)
    ∧ ((putBird s now ip opDesc ua id name file).state.opLog = s.opLog
      ∧ (putBird s now ip opDesc ua id name file).resp.status = 429
      ∧ (putBird s now ip opDesc ua id name file).logFileWritten = false)
    ∧ ((deleteBird s now ip opDesc ua id).state.opLog = s.opLog
      ∧ (deleteBird s now ip opDesc ua id).resp.status = 429
      ∧ (deleteBird s now ip opDesc ua id).logFileWritten = false) := by
  refine ⟨?_, ?_, ?_⟩
  · have hr := limiter_rejected_eq s.ipOps now ip "POST" "/api/birds" h
    simp [postBird, hr, ApiResponse.status]
  · have hr := limiter_rejected_eq s.ipOps now ip "PUT" ("/api/birds/" ++ toString id) h
    simp [putBird, hr, ApiResponse.status]
  · have hr := limiter_rejected_eq s.ipOps now ip "DELETE" ("/api/birds/" ++ toString id) h
    simp [deleteBird, hr, ApiResponse.status]

/-- Witness for C3: a server whose rate-limit file holds 8 fresh operations
of IP `"a"`. -/
theorem rateLimited_request_not_logged_witness :
    8 ≤ (recentForIp throttledState.ipOps 0 "a").length
    ∧ (((postBird throttledState 0 "a" none "ua" (some "b") none).state.opLog
          = throttledState.opLog
        ∧ (postBird throttledState 0 "a" none "ua" (some "b") none).resp.status = 429
        ∧ (postBird throttledState 0 "a" none "ua" (some "b") none).logFileWritten = false)
      ∧ ((putBird throttledState 0 "a" none "ua" 7 (some "b") none).state.opLog
          = throttledState.opLog
        ∧ (putBird throttledState 0 "a" none "ua" 7 (some "b") none).resp.status = 429
        ∧ (putBird throttledState 0 "a" none "ua" 7 (some "b") none).logFileWritten = false)
      ∧ ((deleteBird throttledState 0 "a" none "ua" 7).state.opLog = throttledState.opLog
        ∧ (deleteBird throttledState 0 "a" none "ua" 7).resp.status = 429
        ∧ (deleteBird throttledState 0 "a" none "ua" 7).logFileWritten = false)) :=
  ⟨by decide,
   rateLimited_request_not_logged throttledState 0 "a" none "ua" (some "b") none 7 (by decide)⟩

/-! ### Claim C5 -/

theorem take_min_length (l : List α) (n : Nat) : l.take (min n l.length) = l.take n := by
  rcases Nat.le_total n l.length with h | h
  · rw [Nat.min_eq_left h]
  · rw [Nat.min_eq_right h, List.take_length, List.take_of_length_le h]

theorem drop_min_of_le (m : List α) (len s : Nat) (hm : m.length ≤ len) :
    m.drop (min s len) = m.drop s := by
  rcases Nat.le_total s len with h | h
  · rw [Nat.min_eq_left h]
  · rw [Nat.min_eq_right h, List.drop_eq_nil_of_le hm,
      List.drop_eq_nil_of_le (le_trans hm h)]

theorem jsSlice_page (l : List α) (s : Int) (hs : 0 ≤ s) :
    jsSlice l s (s + 48) = (l.drop s.toNat).take 48 := by
  unfold jsSlice jsSliceIndex
  have hsk : 0 ≤ s + 48 := by omega
  rw [if_neg (not_lt.mpr hs), if_neg (not_lt.mpr hsk)]
  have htn : (s + 48).toNat = s.toNat + 48 := by omega
  rw [htn, take_min_length,
    drop_min_of_le _ _ _ (by simp [List.length_take]),
    List.drop_take]
  congr 1
  omega

/-- C5: `GET /api/birds` with page `k ≥ 1` first filters by case-insensitive
substring match on the name (no filter for an empty search string), returns
exactly the filtered elements at indices `[(k-1)*48, k*48)`, and sets
`hasMore` exactly when `k*48` is below the filtered length. -/
theorem listBirds_pagination_and_search (birds : List Bird) (page : Int) (search : String)
    (h : 1 ≤ page) :
    (listBirds birds page search).1
      = ((specFilteredBirds birds search).drop ((page - 1) * 48).toNat).take 48
    ∧ ((listBirds birds page search).2 = true ↔
        page * 48 < ((specFilteredBirds birds search).length : Int)) := by
  have hs : 0 ≤ (page - 1) * 48 := by
    have : 0 ≤ page - 1 := by omega
    positivity
  simp only [listBirds, specFilteredBirds]
  constructor
  · rw [jsSlice_page _ _ hs]
  · rw [decide_eq_true_eq]
    constructor <;> intro <;> omega

/-- Witness for C5 on a two-record store searched for `"a"` at page 1. -/
theorem listBirds_pagination_and_search_witness :
    1 ≤ (1 : Int)
    ∧ ((listBirds [⟨1, "Aa", none⟩, ⟨2, "b", none⟩] 1 "a").1
        = ((specFilteredBirds [⟨1, "Aa", none⟩, ⟨2, "b", none⟩] "a").drop
            (((1 : Int) - 1) * 48).toNat).take 48
      ∧ ((listBirds [⟨1, "Aa", none⟩, ⟨2, "b", none⟩] 1 "a").2 = true ↔
          (1 : Int) * 48 < ((specFilteredBirds [⟨1, "Aa", none⟩, ⟨2, "b", none⟩] "a").length : Int))) :=
  ⟨by norm_num, listBirds_pagination_and_search _ 1 "a" (by norm_num)⟩

/-! ### Claim C6 -/

/-- C6 counterexample: with one stored bird, a page query that parses to the
negative integer `-1` returns an empty page with `hasMore = true`, while
page 1 returns the bird with `hasMore = false` — negative pages do not behave
as page 1. -/
theorem getBirds_negative_page_not_page_one :
    getBirds [⟨1, "a", none⟩] (some (-1)) "" ≠ getBirds [⟨1, "a", none⟩] (some 1) "" := by
  decide

/-- C6 amended: a page query that is absent or non-numeric (`parseInt` gave
`NaN`) or parses to `0` falls back to page 1; page values parsing to a
negative integer are kept and are not equivalent to page 1. -/
theorem getBirds_zero_or_invalid_page_as_page_one (birds : List Bird) (q : Option Int)
    (search : String) (h : q = none ∨ q = some 0) :
    getBirds birds q search = getBirds birds (some 1) search := by
  rcases h with h | h <;> subst h <;> rfl

/-- Witness for the amended C6 with an absent page query. -/
theorem getBirds_zero_or_invalid_page_as_page_one_witness :
    ((none : Option Int) = none ∨ (none : Option Int) = some 0)
    ∧ getBirds [] none "" = getBirds [] (some 1) "" :=
  ⟨Or.inl rfl, getBirds_zero_or_invalid_page_as_page_one [] none "" (Or.inl rfl)⟩

/-! ### Claim C7 -/

/-- C7 counterexample: starting from a store satisfying the 10-character name
invariant, a `PUT` carrying an 11-character name is accepted (the update
handler performs no length validation) and stores the overlong name. -/
theorem putBird_accepts_overlong_name :
    (∀ b ∈ [Bird.mk 1 "a" none], b.name.length ≤ 10)
    ∧ (putBird ⟨[⟨1, "a", none⟩], [], []⟩ 0 "ip" none "ua" 1
        (some "abcdefghijk") none).state.birds = [⟨1, "abcdefghijk", none⟩]
    ∧ 10 < (String.length "abcdefghijk")
    ∧ (putBird ⟨[⟨1, "a", none⟩], [], []⟩ 0 "ip" none "ua" 1
        (some "abcdefghijk") none).resp.status = 200 := by
  decide

/-- C7 amended: create enforces the name bound — a missing (or empty) name or
a name longer than 10 characters is rejected with a 400 validation error and
the store is untouched — and successful creates and deletes preserve the
invariant that every stored name has at most 10 characters; update, however,
performs no name-length validation and can break the invariant. -/
theorem name_invariant_create_delete (s : ServerState) (now : Int) (ip : String)
    (opDesc : Option String) (ua : String) (file : Option UploadedFile)
    (h : (recentForIp s.ipOps now ip).length < 8) :
    ((postBird s now ip opDesc ua none file).resp = .badRequest "Name is required"
      ∧ (postBird s now ip opDesc ua none file).state.birds = s.birds)
    ∧ (∀ nm : String, nm ≠ "" → 10 < nm.length →
        (postBird s now ip opDesc ua (some nm) file).resp
          = .badRequest "Name cannot exceed 10 characters"
        ∧ (postBird s now ip opDesc ua (some nm) file).state.birds = s.birds)
    ∧ (∀ nm : String, nm.length ≤ 10 → (∀ b ∈ s.birds, b.name.length ≤ 10) →
        ∀ b ∈ (postBird s now ip opDesc ua (some nm) file).state.birds, b.name.length ≤ 10)
    ∧ (∀ id : Int, (∀ b ∈ s.birds, b.name.length ≤ 10) →
        ∀ b ∈ (deleteBird s now ip opDesc ua id).state.birds, b.name.length ≤ 10) := by
  have hr := limiter_allowed_eq s.ipOps now ip "POST" "/api/birds" h
  refine ⟨?_, ?_, ?_, ?_⟩
  · simp [postBird, hr]
  · intro nm hne hlen
    simp [postBird, hr, hne, hlen]
  · intro nm hlen hinv b hb
    by_cases hne : nm = ""
    · simp [postBird, hr, hne] at hb
      exact hinv b hb
    · simp only [postBird, hr] at hb
      rw [if_neg hne, if_neg (by omega)] at hb
      cases file with
      | none =>
        simp at hb
        rcases hb with hb | hb
        · rw [hb]; exact hlen
        · exact hinv b hb
      | some f =>
        by_cases hsize : 1048576 < f.size
        · simp [hsize] at hb
          exact hinv b hb
        · simp [hsize] at hb
          rcases hb with hb | hb
          · rw [hb]; exact hlen
          · exact hinv b hb
  · intro id hinv b hb
    have hr' := limiter_allowed_eq s.ipOps now ip "DELETE" ("/api/birds/" ++ toString id) h
    simp only [deleteBird, hr'] at hb
    cases hidx : s.birds.findIdx? (fun b => b.id == id) with
    | none =>
      rw [hidx] at hb
      simp at hb
      exact hinv b hb
    | some i =>
      rw [hidx] at hb
      simp at hb
      exact hinv b (List.eraseIdx_subset _ _ hb)

/-- Witness for the amended C7 on an empty server. -/
theorem name_invariant_create_delete_witness :
    (recentForIp (ServerState.mk [] [] []).ipOps 0 "a").length < 8
    ∧ (((postBird ⟨[], [], []⟩ 0 "a" none "ua" none none).resp = .badRequest "Name is required"
        ∧ (postBird ⟨[], [], []⟩ 0 "a" none "ua" none none).state.birds
            = (ServerState.mk [] [] []).birds)
      ∧ (∀ nm : String, nm ≠ "" → 10 < nm.length →
          (postBird ⟨[], [], []⟩ 0 "a" none "ua" (some nm) none).resp
            = .badRequest "Name cannot exceed 10 characters"
          ∧ (postBird ⟨[], [], []⟩ 0 "a" none "ua" (some nm) none).state.birds
              = (ServerState.mk [] [] []).birds)
      ∧ (∀ nm : String, nm.length ≤ 10 →
          (∀ b ∈ (ServerState.mk [] [] []).birds, b.name.length ≤ 10) →
          ∀ b ∈ (postBird ⟨[], [], []⟩ 0 "a" none "ua" (some nm) none).state.birds,
            b.name.length ≤ 10)
      ∧ (∀ id : Int, (∀ b ∈ (ServerState.mk [] [] []).birds, b.name.length ≤ 10) →
          ∀ b ∈ (deleteBird ⟨[], [], []⟩ 0 "a" none "ua" id).state.birds,
            b.name.length ≤ 10)) :=
  ⟨by decide, name_invariant_create_delete ⟨[], [], []⟩ 0 "a" none "ua" none (by decide)⟩

/-! ### Claim C8 -/

/-- C8 counterexample: `id = Date.now()` is not deduplicated — creating at
instant 5 while the store already holds a record with id 5 succeeds (201) and
leaves two records with id 5, so the returned id is not unique in the store. -/
theorem postBird_id_collision :
    (postBird ⟨[⟨5, "a", none⟩], [], []⟩ 5 "ip" none "ua" (some "b") none).resp
      = .createdBird ⟨5, "b", none⟩ "POST /api/birds"
    ∧ ((postBird ⟨[⟨5, "a", none⟩], [], []⟩ 5 "ip" none "ua" (some "b") none).state.birds.countP
        (fun b => b.id == 5)) = 2 := by
  decide

/-- C8 amended: for a valid create (non-empty name of at most 10 characters,
image within the 1 MiB limit, limiter quota available) whose creation instant
differs from every stored id, the 201 response carries the new record with
`id = now`, that id occurs exactly once in the store, and an immediate
`GET /api/birds/:id` returns the new record; when a stored record already has
id equal to the creation instant, uniqueness fails (retrievability of the new
record still holds since it is prepended). -/
theorem create_id_unique_and_retrievable (s : ServerState) (now : Int) (ip : String)
    (opDesc : Option String) (ua : String) (nm : String) (file : Option UploadedFile)
    (h : (recentForIp s.ipOps now ip).length < 8)
    (hne : nm ≠ "") (hlen : nm.length ≤ 10)
    (hsize : ∀ f, file = some f → f.size ≤ 1048576)
    (hfresh : ∀ b ∈ s.birds, b.id ≠ now) :
    (postBird s now ip opDesc ua (some nm) file).resp
      = .createdBird ⟨now, nm, file.map UploadedFile.filename⟩ (jsOpDesc opDesc "POST" "/api/birds")
    ∧ ((postBird s now ip opDesc ua (some nm) file).state.birds.countP
        (fun b => b.id == now)) = 1
    ∧ getBirdById (postBird s now ip opDesc ua (some nm) file).state.birds now
        = some ⟨now, nm, file.map UploadedFile.filename⟩ := by
  have hr := limiter_allowed_eq s.ipOps now ip "POST" "/api/birds" h
  have hcount : s.birds.countP (fun b => b.id == now) = 0 := by
    rw [List.countP_eq_zero]
    intro b hb
    simp [hfresh b hb]
  have hbirds : (postBird s now ip opDesc ua (some nm) file).state.birds
      = (⟨now, nm, file.map UploadedFile.filename⟩ : Bird) :: s.birds := by
    cases file with
    | none => simp [postBird, hr, hne, hlen, Nat.not_lt.mpr hlen]
    | some f =>
      have : ¬ 1048576 < f.size := Nat.not_lt.mpr (hsize f rfl)
      simp [postBird, hr, hne, Nat.not_lt.mpr hlen, this]
  have hresp : (postBird s now ip opDesc ua (some nm) file).resp
      = .createdBird ⟨now, nm, file.map UploadedFile.filename⟩
          (jsOpDesc opDesc "POST" "/api/birds") := by
    cases file with
    | none => simp [postBird, hr, hne, Nat.not_lt.mpr hlen, logOperation]
    | some f =>
      have : ¬ 1048576 < f.size := Nat.not_lt.mpr (hsize f rfl)
      simp [postBird, hr, hne, Nat.not_lt.mpr hlen, this, logOperation]
  refine ⟨hresp, ?_, ?_⟩
  · rw [hbirds, List.countP_cons]
    simp [hcount]
  · rw [hbirds]
    simp [getBirdById]

/-- Witness for the amended C8: creating `"b"` at instant 1 on an empty
server. -/
theorem create_id_unique_and_retrievable_witness :
    (recentForIp (ServerState.mk [] [] []).ipOps 1 "a").length < 8
    ∧ "b" ≠ ""
    ∧ String.length "b" ≤ 10
    ∧ (∀ f : UploadedFile, (none : Option UploadedFile) = some f → f.size ≤ 1048576)
    ∧ (∀ b ∈ (ServerState.mk [] [] []).birds, b.id ≠ 1)
    ∧ ((postBird ⟨[], [], []⟩ 1 "a" none "ua" (some "b") none).resp
        = .createdBird ⟨1, "b", (none : Option UploadedFile).map UploadedFile.filename⟩
            (jsOpDesc none "POST" "/api/birds")
      ∧ ((postBird ⟨[], [], []⟩ 1 "a" none "ua" (some "b") none).state.birds.countP
          (fun b => b.id == 1)) = 1
      ∧ getBirdById (postBird ⟨[], [], []⟩ 1 "a" none "ua" (some "b") none).state.birds 1
          = some ⟨1, "b", (none : Option UploadedFile).map UploadedFile.filename⟩) := by
  refine ⟨by decide, by decide, by decide, ?_, ?_, ?_⟩
  · intro f hf
    cases hf
  · intro b hb
    cases hb
  · exact create_id_unique_and_retrievable ⟨[], [], []⟩ 1 "a" none "ua" "b" none (by decide)
      (by decide) (by decide) (by intro f hf; cases hf) (by intro b hb; cases hb)

/-! ### Claim C9 -/

theorem jsonToBird_birdToJson (b : Bird) : jsonToBird (birdToJson b) = some b := by
  cases b with
  | mk i n img => cases img <;> rfl

/-- C9: serializing the in-memory record list with `saveData` and parsing it
back as `initData` does on restart reproduces the same records in the same
order, all fields equal. -/
theorem saveData_initData_roundtrip (birds : List Bird) :
    initData (saveData birds) = some birds := by
  simp only [saveData, initData]
  induction birds with
  | nil => rfl
  | cons b t ih =>
    simp only [List.map_cons, decodeBirds, jsonToBird_birdToJson, ih]

/-! ### Claim C10 -/

theorem ipEntry_mem_cleaned (ops : List IpOp) (now : Int) (ip m p : String) :
    (⟨ip, now, m, p⟩ : IpOp) ∈ (ops ++ [(⟨ip, now, m, p⟩ : IpOp)]).filter
      (fun op => decide (now - dayMs < op.timestamp)) := by
  rw [List.mem_filter]
  refine ⟨List.mem_append_right _ (List.mem_singleton_self _), ?_⟩
  have := dayMs_pos
  simp only [decide_eq_true_eq]
  omega

theorem logEntry_mem_recent (logs : List LogEntry) (now : Int) (ip desc m p ua : String) :
    (⟨now, ip, desc, m, p, ua⟩ : LogEntry)
      ∈ (logs ++ [(⟨now, ip, desc, m, p, ua⟩ : LogEntry)]).filter
        (fun l => decide (now - thirtyDaysMs < l.timestamp)) := by
  rw [List.mem_filter]
  refine ⟨List.mem_append_right _ (List.mem_singleton_self _), ?_⟩
  have := thirtyDaysMs_pos
  simp only [decide_eq_true_eq]
  omega

/-- C10: a mutating request that clears the limiter but fails in the handler —
PUT or DELETE on an absent id (404), POST with a missing, empty or overlong
name or an oversized image (400) — leaves the bird store untouched and does
not rewrite its file, yet its rate-limit entry and operation-log entry were
appended and both of those files rewritten: failed mutations consume quota
and are logged. -/
theorem failed_mutations_recorded (s : ServerState) (now : Int) (ip : String)
    (opDesc : Option String) (ua : String) (id : Int) (name : Option String)
    (file : Option UploadedFile)
    (h : (recentForIp s.ipOps now ip).length < 8) :
    (s.birds.findIdx? (fun b => b.id == id) = none →
      (putBird s now ip opDesc ua id name file).resp = .notFound
      ∧ recordedNotApplied s (putBird s now ip opDesc ua id name file)
          ⟨ip, now, "PUT", "/api/birds/" ++ toString id⟩
          ⟨now, ip, jsOpDesc opDesc "PUT" ("/api/birds/" ++ toString id), "PUT",
           "/api/birds/" ++ toString id, ua⟩)
    ∧ (s.birds.findIdx? (fun b => b.id == id) = none →
      (deleteBird s now ip opDesc ua id).resp = .notFound
      ∧ recordedNotApplied s (deleteBird s now ip opDesc ua id)
          ⟨ip, now, "DELETE", "/api/birds/" ++ toString id⟩
          ⟨now, ip, jsOpDesc opDesc "DELETE" ("/api/birds/" ++ toString id), "DELETE",
           "/api/birds/" ++ toString id, ua⟩)
    ∧ ((postBird s now ip opDesc ua none file).resp = .badRequest "Name is required"
      ∧ recordedNotApplied s (postBird s now ip opDesc ua none file)
          ⟨ip, now, "POST", "/api/birds"⟩
          ⟨now, ip, jsOpDesc opDesc "POST" "/api/birds", "POST", "/api/birds", ua⟩)
    ∧ (∀ nm : String, nm ≠ "" → 10 < nm.length →
      (postBird s now ip opDesc ua (some nm) file).resp
          = .badRequest "Name cannot exceed 10 characters"
      ∧ recordedNotApplied s (postBird s now ip opDesc ua (some nm) file)
          ⟨ip, now, "POST", "/api/birds"⟩
          ⟨now, ip, jsOpDesc opDesc "POST" "/api/birds", "POST", "/api/birds", ua⟩)
    ∧ (∀ (nm : String) (f : UploadedFile), nm ≠ "" → nm.length ≤ 10 → 1048576 < f.size →
      (postBird s now ip opDesc ua (some nm) (some f)).resp
          = .badRequest "Image size cannot exceed 1MB"
      ∧ recordedNotApplied s (postBird s now ip opDesc ua (some nm) (some f))
          ⟨ip, now, "POST", "/api/birds"⟩
          ⟨now, ip, jsOpDesc opDesc "POST" "/api/birds", "POST", "/api/birds", ua⟩) := by
  have hrPost := limiter_allowed_eq s.ipOps now ip "POST" "/api/birds" h
  refine ⟨?_, ?_, ?_, ?_, ?_⟩
  · intro hidx
    have hr := limiter_allowed_eq s.ipOps now ip "PUT" ("/api/birds/" ++ toString id) h
    constructor
    · simp [putBird, hr, hidx]
    · simp only [recordedNotApplied]
      refine ⟨?_, ?_, ?_, ?_, ?_, ?_⟩ <;>
        simp [putBird, hr, hidx, logOperation, dayMs_pos, thirtyDaysMs_pos]
  · intro hidx
    have hr := limiter_allowed_eq s.ipOps now ip "DELETE" ("/api/birds/" ++ toString id) h
    constructor
    · simp [deleteBird, hr, hidx]
    · simp only [recordedNotApplied]
      refine ⟨?_, ?_, ?_, ?_, ?_, ?_⟩ <;>
        simp [deleteBird, hr, hidx, logOperation, dayMs_pos, thirtyDaysMs_pos]
  · constructor
    · simp [postBird, hrPost]
    · simp only [recordedNotApplied]
      refine ⟨?_, ?_, ?_, ?_, ?_, ?_⟩ <;>
        simp [postBird, hrPost, logOperation, dayMs_pos, thirtyDaysMs_pos]
  · intro nm hne hlen
    constructor
    · simp [postBird, hrPost, hne, hlen]
    · simp only [recordedNotApplied]
      refine ⟨?_, ?_, ?_, ?_, ?_, ?_⟩ <;>
        simp [postBird, hrPost, hne, hlen, logOperation, dayMs_pos, thirtyDaysMs_pos]
  · intro nm f hne hlen hsize
    constructor
    · simp [postBird, hrPost, hne, Nat.not_lt.mpr hlen, hsize]
    · simp only [recordedNotApplied]
      refine ⟨?_, ?_, ?_, ?_, ?_, ?_⟩ <;>
        simp [postBird, hrPost, hne, Nat.not_lt.mpr hlen, hsize, logOperation,
          dayMs_pos, thirtyDaysMs_pos]

/-- Witness for C10 on an empty server: id 7 is absent and the `name = none`
POST is invalid. -/
theorem failed_mutations_recorded_witness :
    (recentForIp (ServerState.mk [] [] []).ipOps 0 "a").length < 8
    ∧ (((ServerState.mk [] [] []).birds.findIdx? (fun b => b.id == 7) = none →
        (putBird ⟨[], [], []⟩ 0 "a" none "ua" 7 none none).resp = .notFound
        ∧ recordedNotApplied ⟨[], [], []⟩ (putBird ⟨[], [], []⟩ 0 "a" none "ua" 7 none none)
            ⟨"a", 0, "PUT", "/api/birds/" ++ toString (7 : Int)⟩
            ⟨0, "a", jsOpDesc none "PUT" ("/api/birds/" ++ toString (7 : Int)), "PUT",
             "/api/birds/" ++ toString (7 : Int), "ua"⟩)
      ∧ (((ServerState.mk [] [] []).birds.findIdx? (fun b => b.id == 7) = none →
        (deleteBird ⟨[], [], []⟩ 0 "a" none "ua" 7).resp = .notFound
        ∧ recordedNotApplied ⟨[], [], []⟩ (deleteBird ⟨[], [], []⟩ 0 "a" none "ua" 7)
            ⟨"a", 0, "DELETE", "/api/birds/" ++ toString (7 : Int)⟩
            ⟨0, "a", jsOpDesc none "DELETE" ("/api/birds/" ++ toString (7 : Int)), "DELETE",
             "/api/birds/" ++ toString (7 : Int), "ua"⟩))
      ∧ ((postBird ⟨[], [], []⟩ 0 "a" none "ua" none none).resp = .badRequest "Name is required"
        ∧ recordedNotApplied ⟨[], [], []⟩ (postBird ⟨[], [], []⟩ 0 "a" none "ua" none none)
            ⟨"a", 0, "POST", "/api/birds"⟩
            ⟨0, "a", jsOpDesc none "POST" "/api/birds", "POST", "/api/birds", "ua"⟩)
      ∧ (∀ nm : String, nm ≠ "" → 10 < nm.length →
        (postBird ⟨[], [], []⟩ 0 "a" none "ua" (some nm) none).resp
            = .badRequest "Name cannot exceed 10 characters"
        ∧ recordedNotApplied ⟨[], [], []⟩ (postBird ⟨[], [], []⟩ 0 "a" none "ua" (some nm) none)
            ⟨"a", 0, "POST", "/api/birds"⟩
            ⟨0, "a", jsOpDesc none "POST" "/api/birds", "POST", "/api/birds", "ua"⟩)
      ∧ (∀ (nm : String) (f : UploadedFile), nm ≠ "" → nm.length ≤ 10 → 1048576 < f.size →
        (postBird ⟨[], [], []⟩ 0 "a" none "ua" (some nm) (some f)).resp
            = .badRequest "Image size cannot exceed 1MB"
        ∧ recordedNotApplied ⟨[], [], []⟩
            (postBird ⟨[], [], []⟩ 0 "a" none "ua" (some nm) (some f))
            ⟨"a", 0, "POST", "/api/birds"⟩
            ⟨0, "a", jsOpDesc none "POST" "/api/birds", "POST", "/api/birds", "ua"⟩)) :=
  ⟨by decide, failed_mutations_recorded ⟨[], [], []⟩ 0 "a" none "ua" 7 none none (by decide)⟩

end BirdServer
